import Mathlib

/-!
Verification of the comparison-and-classification pipeline of the
`wheres_waldo` visual-regression server (Python sources under
`src/wheres_waldo/`).  Each Python function relevant to the claims is
shallowly embedded as an executable Lean definition; machine floats that
only ever hold small exact values (token counts, confidences,
percentages) are modelled as rationals, Python `int` as `Nat`/`Int`, and
Python dictionaries as structures whose optional fields model possibly
absent keys.
-/

namespace WheresWaldo

/-! ## SHA-256 (`hashlib.sha256`), modelled over `Nat` with explicit
reduction modulo `2 ^ 32`.  `utils/helpers.py` feeds it the UTF-8 bytes
of the hash-input string. -/

def w32 : Nat := 2 ^ 32

/-- 32-bit truncation. -/
def m32 (x : Nat) : Nat := x % w32

/-- Right rotation of a 32-bit word. -/
def rotr (n x : Nat) : Nat :=
  m32 (Nat.lor (Nat.shiftRight x n) (Nat.shiftLeft x (32 - n)))

def shr (n x : Nat) : Nat := Nat.shiftRight x n

def bigSigma0 (x : Nat) : Nat :=
  Nat.xor (rotr 2 x) (Nat.xor (rotr 13 x) (rotr 22 x))

def bigSigma1 (x : Nat) : Nat :=
  Nat.xor (rotr 6 x) (Nat.xor (rotr 11 x) (rotr 25 x))

def smallSigma0 (x : Nat) : Nat :=
  Nat.xor (rotr 7 x) (Nat.xor (rotr 18 x) (shr 3 x))

def smallSigma1 (x : Nat) : Nat :=
  Nat.xor (rotr 17 x) (Nat.xor (rotr 19 x) (shr 10 x))

def chFn (x y z : Nat) : Nat :=
  Nat.xor (Nat.land x y) (Nat.land (Nat.xor x (w32 - 1)) z)

def majFn (x y z : Nat) : Nat :=
  Nat.xor (Nat.land x y) (Nat.xor (Nat.land x z) (Nat.land y z))

/-- The 64 SHA-256 round constants. -/
def sha256K : List Nat :=
  [1116352408, 1899447441, 3049323471, 3921009573, 961987163,
   1508970993, 2453635748, 2870763221, 3624381080, 310598401,
   607225278, 1426881987, 1925078388, 2162078206, 2614888103,
   3248222580, 3835390401, 4022224774, 264347078, 604807628,
   770255983, 1249150122, 1555081692, 1996064986, 2554220882,
   2821834349, 2952996808, 3210313671, 3336571891, 3584528711,
   113926993, 338241895, 666307205, 773529912, 1294757372,
   1396182291, 1695183700, 1986661051, 2177026350, 2456956037,
   2730485921, 2820302411, 3259730800, 3345764771, 3516065817,
   3600352804, 4094571909, 275423344, 430227734, 506948616,
   659060556, 883997877, 958139571, 1322822218, 1537002063,
   1747873779, 1955562222, 2024104815, 2227730452, 2361852424,
   2428436474, 2756734187, 3204031479, 3329325298]

/-- Initial SHA-256 hash state. -/
def sha256H0 : List Nat :=
  [1779033703, 3144134277, 1013904242, 2773480762, 1359893119,
   2600822924, 528734635, 1541459225]

/-- SHA-256 padding: append `0x80`, zero bytes to 56 mod 64, then the
big-endian 64-bit bit length. -/
def sha256Pad (msg : List Nat) : List Nat :=
  let len := msg.length
  let bitLen := len * 8
  let zeros := (64 + 55 - (len % 64)) % 64
  msg ++ [0x80] ++ List.replicate zeros 0 ++
    (List.range 8).map (fun i => (bitLen / 2 ^ ((7 - i) * 8)) % 256)

/-- Split a byte list into 64-byte blocks, structurally recursive on a
fuel bound so that it reduces inside the kernel. -/
def toBlocksAux : Nat → List Nat → List (List Nat)
  | 0, _ => []
  | _, [] => []
  | fuel + 1, b :: bs => ((b :: bs).take 64) :: toBlocksAux fuel ((b :: bs).drop 64)

/-- Split a byte list into 64-byte blocks (length is divisible by 64
after padding). -/
def toBlocks (bs : List Nat) : List (List Nat) :=
  toBlocksAux bs.length bs

/-- Big-endian 32-bit words of a 64-byte block. -/
def blockWords (block : List Nat) : List Nat :=
  (List.range 16).map (fun i =>
    (block.getD (4 * i) 0) * 2 ^ 24 + (block.getD (4 * i + 1) 0) * 2 ^ 16 +
    (block.getD (4 * i + 2) 0) * 2 ^ 8 + block.getD (4 * i + 3) 0)

/-- Extend 16 message words to the 64-entry message schedule. -/
def extendSchedule (ws : List Nat) : Nat → List Nat
  | 0 => ws
  | n + 1 =>
    let prev := extendSchedule ws n
    let t := 16 + n
    prev ++ [m32 (smallSigma1 (prev.getD (t - 2) 0) + prev.getD (t - 7) 0 +
                  smallSigma0 (prev.getD (t - 15) 0) + prev.getD (t - 16) 0)]

/-- One SHA-256 compression round. -/
def sha256Round (st : List Nat) (kw : Nat × Nat) : List Nat :=
  match st with
  | [a, b, c, d, e, f, g, h] =>
    let t1 := m32 (h + bigSigma1 e + chFn e f g + kw.1 + kw.2)
    let t2 := m32 (bigSigma0 a + majFn a b c)
    [m32 (t1 + t2), a, b, c, m32 (d + t1), e, f, g]
  | other => other

/-- Compress one 64-byte block into the running hash state. -/
def sha256Compress (st : List Nat) (block : List Nat) : List Nat :=
  let ws := extendSchedule (blockWords block) 48
  let out := (sha256K.zip ws).foldl sha256Round st
  (st.zip out).map (fun p => m32 (p.1 + p.2))

/-- SHA-256 digest of a byte list, as eight 32-bit words. -/
def sha256Words (msg : List Nat) : List Nat :=
  (toBlocks (sha256Pad msg)).foldl sha256Compress sha256H0

def hexDigit (n : Nat) : Char :=
  if n < 10 then Char.ofNat (48 + n) else Char.ofNat (87 + n)

/-- Lowercase hexadecimal rendering of a 32-bit word. -/
def wordHex (x : Nat) : List Char :=
  (List.range 8).map (fun i => hexDigit ((x / 16 ^ (7 - i)) % 16))

/-- `hashlib.sha256(...).hexdigest()`: lowercase hex digest string. -/
def sha256Hex (msg : List Nat) : String :=
  String.mk ((sha256Words msg).flatMap wordHex)

/-- UTF-8 encoding of one character's code point, as byte values. -/
def utf8Char (c : Char) : List Nat :=
  let n := c.toNat
  if n < 0x80 then [n]
  else if n < 0x800 then
    [0xc0 + n / 64, 0x80 + n % 64]
  else if n < 0x10000 then
    [0xe0 + n / 4096, 0x80 + n / 64 % 64, 0x80 + n % 64]
  else
    [0xf0 + n / 262144, 0x80 + n / 4096 % 64, 0x80 + n / 64 % 64, 0x80 + n % 64]

/-- UTF-8 bytes of a string (Python's `str.encode()`). -/
def utf8Bytes (s : String) : List Nat :=
  s.data.flatMap utf8Char

/-! ## `utils/helpers.py` -/

/-- Lexicographic code-point comparison of character lists, the order
Python uses to compare strings. -/
def lexLe : List Char → List Char → Bool
  | [], _ => true
  | _ :: _, [] => false
  | a :: as, b :: bs =>
    if a.toNat < b.toNat then true
    else if b.toNat < a.toNat then false
    else lexLe as bs

/-- Python `sorted([a, b])` for two strings: lexicographic (code-point)
ascending order. -/
def sortedPair (a b : String) : String × String :=
  if lexLe a.data b.data then (a, b) else (b, a)

/-- `helpers.hash_image_pair`: the cache key.  The source builds
`hash_input = f"{sorted(paths)[0]}|{sorted(paths)[1]}|{threshold}"`
from the two path strings and hashes its UTF-8 bytes with SHA-256,
returning the hex digest. -/
def hash_image_pair (image1_path image2_path : String) (threshold : Nat) : String :=
  let s := sortedPair image1_path image2_path
  let hashInput := s.1 ++ "|" ++ s.2 ++ "|" ++ toString threshold
  sha256Hex (utf8Bytes hashInput)

/-- `CacheService.get_cache_key` simply delegates to `hash_image_pair`
(`services/cache.py`, lines 169-185). -/
def get_cache_key (before_path after_path : String) (threshold : Nat) : String :=
  hash_image_pair before_path after_path threshold

/-! ## Domain models (`models/domain.py`).  Python floats that hold
confidences and percentages are modelled as `ℚ`; `datetime` values as a
rational time coordinate; `pathlib.Path` as its string. -/

inductive Severity
  | critical
  | major
  | minor
deriving DecidableEq, Repr

/-- `ChangeRegion`: detected change with tri-state `intended` (the
Python field is `bool | None`). -/
structure ChangeRegion where
  bbox : List Int
  description : String
  confidence : ℚ
  intended : Option Bool := none
  severity : Option Severity := none
deriving DecidableEq, Repr

/-- `ExpectedChange` from a baseline. -/
structure ExpectedChange where
  description : String
  bbox : Option (List Int) := none
  element : Option String := none
deriving DecidableEq, Repr

/-- Failure reason reported by `_determine_pass_fail`.  The source
interpolates these data into f-strings; the constructors carry exactly
the interpolated values, so which reason (and with which numbers) is
reported is preserved. -/
inductive FailureReason
  | tooManyRegions (total maxRegions : Nat)
  | tooManyPixels (pct maxPct : ℚ)
  | criticalChanges (count : Nat)
  | majorChanges (count : Nat)
deriving DecidableEq, Repr

/-- `ComparisonResult` (`models/domain.py`, lines 125-164). -/
structure ComparisonResult where
  before_path : String
  after_path : String
  threshold : Nat
  changed_pixels : Nat
  total_pixels : Nat
  changed_percentage : ℚ
  intended_changes : List ChangeRegion := []
  unintended_changes : List ChangeRegion := []
  passed : Bool
  failure_reason : Option FailureReason := none
  heatmap_path : Option String := none
  report_path : Option String := none
  timestamp : ℚ
deriving DecidableEq, Repr

/-- `ComparisonConfig` with the defaults declared in `models/domain.py`
(lines 167-212). -/
structure ComparisonConfig where
  pixel_threshold : Nat := 2
  max_changed_regions : Nat := 10
  max_changed_percentage : ℚ := 1 / 2
  enable_anti_aliasing_filter : Bool := true
  anti_aliasing_kernel_size : Nat := 2
  enable_agentic_vision : Bool := true
  progressive_resolution : Bool := true
  min_confidence_threshold : ℚ := 4 / 5
deriving DecidableEq, Repr

/-- Python `threshold or config.pixel_threshold`: `None` and `0` are
falsy, so both fall back to the configured default. -/
def effectiveThreshold (threshold : Option Nat) (cfg : ComparisonConfig) : Nat :=
  match threshold with
  | none => cfg.pixel_threshold
  | some t => if t = 0 then cfg.pixel_threshold else t

/-! ## `ClassificationService` (`services/classification.py`) -/

/-- Substring containment (Python `needle in haystack`); the empty
needle occurs in every string, as in Python. -/
def occursIn (needle hay : List Char) : Bool :=
  (List.range (hay.length + 1)).any
    (fun i => (hay.drop i).take needle.length == needle)

/-- ASCII lowercasing of a string, Python's `str.lower()` on the ASCII
descriptions this pipeline handles. -/
def pyLower (s : String) : String :=
  String.mk (s.data.map (fun c =>
    if 65 ≤ c.toNat ∧ c.toNat ≤ 90 then Char.ofNat (c.toNat + 32) else c))

/-- `ClassificationService._change_matches_expected` (lines 269-287):
case-insensitive substring containment in either direction. -/
def change_matches_expected (change : ChangeRegion) (expected : ExpectedChange) : Bool :=
  let expected_desc := pyLower expected.description
  let change_desc := pyLower change.description
  occursIn expected_desc.data change_desc.data ||
    occursIn change_desc.data expected_desc.data

/-- The loop body of `_classify_changes` (lines 249-264): each change is
matched against the expected list in order; on the first match the
change's `intended` field is set to `True` (unconditionally) and it goes
to the intended list; on no match `intended` is set to `False` only when
the detector left it `None`, and the change goes to the unintended list.
The source appends inside a `for` loop; this structural recursion
produces the same two lists in the same order. -/
def classifyLoop (expected : List ExpectedChange) :
    List ChangeRegion → List ChangeRegion × List ChangeRegion
  | [] => ([], [])
  | c :: cs =>
    let rest := classifyLoop expected cs
    if (expected.find? (fun e => change_matches_expected c e)).isSome then
      ({ c with intended := some true } :: rest.1, rest.2)
    else
      ((rest.1),
        (if c.intended = none then { c with intended := some false } else c) :: rest.2)

/-- `ClassificationService._classify_changes` (lines 225-267).  Python's
`if not gemini_changes` / `if not expected_changes` treat both `None`
and the empty list as falsy. -/
def classify_changes (gemini_changes : List ChangeRegion)
    (expected_changes : Option (List ExpectedChange)) :
    List ChangeRegion × List ChangeRegion :=
  if gemini_changes.isEmpty then ([], [])
  else
    match expected_changes with
    | none => ([], gemini_changes)
    | some [] => ([], gemini_changes)
    | some (e :: es) => classifyLoop (e :: es) gemini_changes

/-- Count of unintended changes with the given severity
(`sum(1 for c in unintended_changes if c.severity == sev)`). -/
def severityCount (sev : Severity) (unintended : List ChangeRegion) : Nat :=
  (unintended.filter (fun c => c.severity = some sev)).length

/-- `ClassificationService._determine_pass_fail` (lines 289-325): four
checks in fixed order, returning on the first failure. -/
def determine_pass_fail (cfg : ComparisonConfig) (pixel_result : ComparisonResult)
    (intended_changes unintended_changes : List ChangeRegion) :
    Bool × Option FailureReason :=
  let total_changes := intended_changes.length + unintended_changes.length
  if total_changes > cfg.max_changed_regions then
    (false, some (.tooManyRegions total_changes cfg.max_changed_regions))
  else if pixel_result.changed_percentage > cfg.max_changed_percentage then
    (false, some (.tooManyPixels pixel_result.changed_percentage cfg.max_changed_percentage))
  else
    let critical_count := severityCount .critical unintended_changes
    let major_count := severityCount .major unintended_changes
    if critical_count > 0 then
      (false, some (.criticalChanges critical_count))
    else if major_count > 0 then
      (false, some (.majorChanges major_count))
    else
      (true, none)

/-! ## `ComparisonService` (`services/comparison.py`).  Images are
matrices of BGR pixels (`cv2.imread` layout), each channel in 0-255.
The two OpenCV primitives whose numerics no claim depends on —
`cv2.GaussianBlur` and `cv2.resize` — are passed in as function
parameters; everything downstream (`absdiff`, grayscale conversion,
thresholding, counting) is embedded concretely. -/

/-- A BGR pixel. -/
abbrev Pixel := Nat × Nat × Nat

/-- An image as a list of rows of pixels. -/
abbrev Img := List (List Pixel)

/-- `numpy` array shape comparison `(rows, cols)`; the channel count is
3 on both sides and cannot differ. -/
def imgShape (img : Img) : Nat × Nat :=
  (img.length, (img.headD []).length)

def natAbsDiff (a b : Nat) : Nat := max a b - min a b

/-- `cv2.absdiff`: per-channel absolute difference. -/
def absdiffImg (a b : Img) : Img :=
  a.zipWith (fun ra rb => ra.zipWith
    (fun pa pb => (natAbsDiff pa.1 pb.1, natAbsDiff pa.2.1 pb.2.1,
                   natAbsDiff pa.2.2 pb.2.2)) rb) b

/-- `cv2.cvtColor(..., COLOR_BGR2GRAY)`: OpenCV's fixed-point
luminance, `(4899*R + 9617*G + 1868*B + 2^13) >> 14` on a BGR pixel. -/
def bgrToGray (p : Pixel) : Nat :=
  (1868 * p.1 + 9617 * p.2.1 + 4899 * p.2.2 + 8192) / 16384

def grayImg (img : Img) : List (List Nat) :=
  img.map (fun row => row.map bgrToGray)

/-- `cv2.threshold(..., THRESH_BINARY)`: strictly-greater-than test,
255 where the source exceeds the threshold, else 0. -/
def threshBinary (t : Nat) (g : List (List Nat)) : List (List Nat) :=
  g.map (fun row => row.map (fun v => if v > t then 255 else 0))

/-- `cv2.countNonZero`. -/
def countNonZero (g : List (List Nat)) : Nat :=
  (g.map (fun row => (row.filter (fun v => v ≠ 0)).length)).sum

/-- `ComparisonService.compare` (lines 44-130).  `blur` stands for
`cv2.GaussianBlur` with the configured kernel and `resize` for
`cv2.resize` to a target shape; `now` models `datetime.now()`.  The
built result hard-codes `passed := false` and empty change lists, as the
source does (its `P3-PLAN-7` placeholder comments). -/
def ComparisonService.compare (blur : Img → Img) (resize : Nat × Nat → Img → Img)
    (cfg : ComparisonConfig) (before_img after_img : Img)
    (threshold : Option Nat) (before_path after_path : String) (now : ℚ) :
    ComparisonResult :=
  let pixel_threshold := effectiveThreshold threshold cfg
  let after_img :=
    if imgShape before_img ≠ imgShape after_img then
      resize (imgShape before_img) after_img
    else after_img
  let (before_img, after_img) :=
    if cfg.enable_anti_aliasing_filter then (blur before_img, blur after_img)
    else (before_img, after_img)
  let diff := absdiffImg before_img after_img
  let diff_gray := grayImg diff
  let thresh := threshBinary pixel_threshold diff_gray
  let changed_pixels := countNonZero thresh
  let total_pixels := diff_gray.length * (diff_gray.headD []).length
  { before_path := before_path
    after_path := after_path
    threshold := pixel_threshold
    changed_pixels := changed_pixels
    total_pixels := total_pixels
    changed_percentage := (changed_pixels : ℚ) / (total_pixels : ℚ) * 100
    intended_changes := []
    unintended_changes := []
    passed := false
    failure_reason := none
    heatmap_path := none
    report_path := none
    timestamp := now }

/-! ## `GeminiRateLimiter` (`services/gemini_integration.py`, lines
35-124).  Token counts are Python floats holding exact small values,
modelled as `ℚ`; wall-clock instants as `ℚ` seconds.  `queueLen` is the
number of items sitting in the `asyncio.Queue`: the module only ever
*reads* the queue (`queue.get()` in `acquire`) and no statement in the
repository puts anything into it, so a step that consumes a queue item
is included below exactly as the source would run it (lines 89-91), and
its unreachability is proved, not assumed. -/

structure RateLimiterState where
  tokens : ℚ := 15
  max_tokens : ℚ := 15
  refill_rate : ℚ := 15 / 60
  last_refill : ℚ
  queueLen : Nat := 0
deriving DecidableEq, Repr

/-- `GeminiRateLimiter._refill_tokens` (lines 97-108). -/
def refill_tokens (now : ℚ) (s : RateLimiterState) : RateLimiterState :=
  let elapsed := now - s.last_refill
  let tokens_to_add := elapsed * s.refill_rate
  { s with
    tokens := min s.max_tokens (s.tokens + tokens_to_add)
    last_refill := now }

/-- `GeminiRateLimiter.acquire` (lines 64-95): refill, take a token if
one is available; otherwise wait on the queue.  If a queue item is
available the waiter decrements without re-checking (source lines
89-91); with the queue empty, `asyncio.wait_for` can only end by the
timeout expiring, returning `False` and leaving the state as after the
refill. -/
def acquire (now : ℚ) (s : RateLimiterState) : Bool × RateLimiterState :=
  let s1 := refill_tokens now s
  if 1 ≤ s1.tokens then
    (true, { s1 with tokens := s1.tokens - 1 })
  else if 0 < s1.queueLen then
    (true, { s1 with tokens := s1.tokens - 1, queueLen := s1.queueLen - 1 })
  else
    (false, s1)

/-- `GeminiRateLimiter.get_status` (lines 110-124): refills, then reads;
only the state effect matters here. -/
def get_status (now : ℚ) (s : RateLimiterState) : RateLimiterState :=
  refill_tokens now s

/-- One observable operation on the limiter: an `acquire` call or a
`get_status` call, at a wall-clock instant. -/
inductive LimiterOp
  | acquireAt (now : ℚ)
  | statusAt (now : ℚ)
deriving DecidableEq, Repr

def LimiterOp.time : LimiterOp → ℚ
  | .acquireAt t => t
  | .statusAt t => t

/-- Apply one operation to the limiter state. -/
def limiterStep (s : RateLimiterState) : LimiterOp → RateLimiterState
  | .acquireAt t => (acquire t s).2
  | .statusAt t => get_status t s

/-- Run a sequence of operations. -/
def runLimiter (s : RateLimiterState) (ops : List LimiterOp) : RateLimiterState :=
  ops.foldl limiterStep s

/-- Wall-clock instants never run backwards: each operation happens no
earlier than the state's last refill. -/
def timesValid (t0 : ℚ) : List LimiterOp → Prop
  | [] => True
  | op :: ops => t0 ≤ op.time ∧ timesValid op.time ops

instance (t0 : ℚ) (ops : List LimiterOp) : Decidable (timesValid t0 ops) := by
  induction ops generalizing t0 with
  | nil => exact isTrue trivial
  | cons op ops ih => exact @instDecidableAnd _ _ inferInstance (ih op.time)

/-- The results of a sequence of `acquire` calls, threading the state. -/
def acquireSeq (s : RateLimiterState) : List ℚ → List Bool × RateLimiterState
  | [] => ([], s)
  | t :: ts =>
    let (ok, s') := acquire t s
    let (rest, sEnd) := acquireSeq s' ts
    (ok :: rest, sEnd)

/-! ## JSON values and `json.loads` (Python standard library, external
to the repository).  The parser mirrors `json.loads` with its defaults:
objects, arrays, strings with the full escape set (including `\uXXXX`
with surrogate-pair combination), numbers with fraction and exponent
parts and the no-leading-zero rule, the constants `NaN`, `Infinity` and
`-Infinity` (accepted by Python by default), `true`/`false`/`null`;
raw control characters (code points below 32) inside string literals
are rejected, as Python's strict mode does, and only space, tab,
newline and carriage return count as whitespace between tokens.
Finite float values are rationals; the three non-finite floats are a
separate constructor.  One representational boundary: Python preserves
lone surrogate escapes inside its `str`; Lean strings cannot hold
surrogate code points, so a lone surrogate decodes to U+FFFD here —
the surrounding parse still succeeds exactly when Python's does. -/

inductive Json
  | null
  | bool (b : Bool)
  | num (q : ℚ)
  | nonfinite (s : String)
  | str (s : String)
  | arr (xs : List Json)
  | obj (fields : List (String × Json))

/-- The only whitespace `json.loads` skips between tokens is space,
tab, newline and carriage return. -/
def isJsonWs (c : Char) : Bool :=
  c = ' ' || c = '\t' || c = '\n' || c = '\r'

def skipWs (cs : List Char) : List Char := cs.dropWhile isJsonWs

def isDigitChar (c : Char) : Bool := 48 ≤ c.toNat && c.toNat ≤ 57

def digitsToNat (ds : List Char) : Nat :=
  ds.foldl (fun a c => a * 10 + (c.toNat - 48)) 0

/-- Value of one hexadecimal digit, for `\uXXXX` escapes. -/
def hexVal (c : Char) : Option Nat :=
  let n := c.toNat
  if 48 ≤ n ∧ n ≤ 57 then some (n - 48)
  else if 97 ≤ n ∧ n ≤ 102 then some (n - 87)
  else if 65 ≤ n ∧ n ≤ 70 then some (n - 55)
  else none

/-- Body of a JSON string literal, after the opening quote.  Escapes
are exactly Python's: `\"`, `\\`, `\/`, `\b`, `\f`, `\n`, `\r`, `\t`
and `\uXXXX` (a high+low surrogate escape pair combines into one code
point; a lone surrogate, which Python keeps, becomes U+FFFD); any other
escape, an unterminated literal, or a raw control character below code
point 32 fails, raising `json.JSONDecodeError`. -/
def parseStringAux : Nat → List Char → List Char → Option (String × List Char)
  | 0, _, _ => none
  | _ + 1, acc, '"' :: rest => some (String.mk acc.reverse, rest)
  | fuel + 1, acc, '\\' :: 'u' :: h1 :: h2 :: h3 :: h4 :: rest =>
    (match hexVal h1, hexVal h2, hexVal h3, hexVal h4 with
    | some a, some b, some c, some d =>
      let v := a * 4096 + b * 256 + c * 16 + d
      if 0xd800 ≤ v ∧ v ≤ 0xdbff then
        match rest with
        | '\\' :: 'u' :: k1 :: k2 :: k3 :: k4 :: rest2 =>
          (match hexVal k1, hexVal k2, hexVal k3, hexVal k4 with
          | some a2, some b2, some c2, some d2 =>
            let w := a2 * 4096 + b2 * 256 + c2 * 16 + d2
            if 0xdc00 ≤ w ∧ w ≤ 0xdfff then
              parseStringAux fuel
                (Char.ofNat (0x10000 + (v - 0xd800) * 1024 + (w - 0xdc00)) :: acc)
                rest2
            else
              parseStringAux fuel (Char.ofNat 0xfffd :: acc) rest
          | _, _, _, _ => parseStringAux fuel (Char.ofNat 0xfffd :: acc) rest)
        | _ => parseStringAux fuel (Char.ofNat 0xfffd :: acc) rest
      else if 0xdc00 ≤ v ∧ v ≤ 0xdfff then
        parseStringAux fuel (Char.ofNat 0xfffd :: acc) rest
      else
        parseStringAux fuel (Char.ofNat v :: acc) rest
    | _, _, _, _ => none)
  | fuel + 1, acc, '\\' :: e :: rest =>
    if e = '"' || e = '\\' || e = '/' then parseStringAux fuel (e :: acc) rest
    else if e = 'n' then parseStringAux fuel ('\n' :: acc) rest
    else if e = 't' then parseStringAux fuel ('\t' :: acc) rest
    else if e = 'r' then parseStringAux fuel ('\r' :: acc) rest
    else if e = 'b' then parseStringAux fuel ('\x08' :: acc) rest
    else if e = 'f' then parseStringAux fuel ('\x0c' :: acc) rest
    else none
  | fuel + 1, acc, c :: rest =>
    if c = '\\' || c = '"' then none
    else if c.toNat < 32 then none
    else parseStringAux fuel (c :: acc) rest
  | _, _, [] => none

/-- A JSON number, per Python's `NUMBER_RE`:
`-?(0|[1-9][0-9]*)(\.[0-9]+)?([eE][+-]?[0-9]+)?`.  The regex matches
the longest valid prefix, so where it stops early (a leading zero
followed by a digit, a dot or exponent marker without digits), the
character after the matched prefix can never start a valid continuation
and Python raises `json.JSONDecodeError`; this function returns `none`
at exactly those points, giving the same accept/reject outcome. -/
def parseNumber (cs : List Char) : Option (Json × List Char) :=
  let (isNeg, cs1) := match cs with
    | '-' :: r => (true, r)
    | _ => (false, cs)
  let intDigits := match cs1 with
    | '0' :: _ => ['0']
    | _ => cs1.takeWhile isDigitChar
  if intDigits.isEmpty then none
  else
    let rest1 := cs1.drop intDigits.length
    let intVal : ℚ := (digitsToNat intDigits : ℚ)
    let signed : ℚ → ℚ := fun q => if isNeg then -q else q
    let (mantissa, rest2) : ℚ × List Char := match rest1 with
      | '.' :: r2 =>
        let fracDigits := r2.takeWhile isDigitChar
        (intVal + (digitsToNat fracDigits : ℚ) / (10 ^ fracDigits.length : ℚ),
          r2.dropWhile isDigitChar)
      | _ => (intVal, rest1)
    let fracFailed : Bool := match rest1 with
      | '.' :: r2 => (r2.takeWhile isDigitChar).isEmpty
      | _ => false
    if fracFailed then none
    else
      match rest2 with
      | 'e' :: r3 => parseExponent (signed mantissa) r3
      | 'E' :: r3 => parseExponent (signed mantissa) r3
      | _ => some (.num (signed mantissa), rest2)
where
  /-- The exponent part after `e`/`E`: optional sign then digits. -/
  parseExponent (mantissa : ℚ) (cs : List Char) : Option (Json × List Char) :=
    let (expNeg, cs1) := match cs with
      | '+' :: r => (false, r)
      | '-' :: r => (true, r)
      | _ => (false, cs)
    let expDigits := cs1.takeWhile isDigitChar
    if expDigits.isEmpty then none
    else
      let e := digitsToNat expDigits
      let value := if expNeg then mantissa / (10 ^ e : ℚ) else mantissa * (10 ^ e : ℚ)
      some (.num value, cs1.dropWhile isDigitChar)

mutual

def parseValue : Nat → List Char → Option (Json × List Char)
  | 0, _ => none
  | fuel + 1, cs =>
    match skipWs cs with
    | [] => none
    | c :: rest =>
      if c = 't' then
        if rest.take 3 = ['r', 'u', 'e'] then some (.bool true, rest.drop 3) else none
      else if c = 'f' then
        if rest.take 4 = ['a', 'l', 's', 'e'] then some (.bool false, rest.drop 4) else none
      else if c = 'n' then
        if rest.take 3 = ['u', 'l', 'l'] then some (.null, rest.drop 3) else none
      else if c = '"' then
        (parseStringAux rest.length [] rest).map (fun p => (.str p.1, p.2))
      else if c = '[' then
        match skipWs rest with
        | ']' :: r2 => some (.arr [], r2)
        | r2 => parseElems fuel [] r2
      else if c = '{' then
        match skipWs rest with
        | '}' :: r2 => some (.obj [], r2)
        | r2 => parseMembers fuel [] r2
      else if c = 'N' then
        if rest.take 2 = ['a', 'N'] then some (.nonfinite "nan", rest.drop 2)
        else none
      else if c = 'I' then
        if rest.take 7 = "nfinity".data then some (.nonfinite "inf", rest.drop 7)
        else none
      else if c = '-' ∧ rest.take 8 = "Infinity".data then
        some (.nonfinite "-inf", rest.drop 8)
      else parseNumber (c :: rest)

def parseElems : Nat → List Json → List Char → Option (Json × List Char)
  | 0, _, _ => none
  | fuel + 1, acc, cs => do
    let (x, r) ← parseValue fuel cs
    match skipWs r with
    | ',' :: r2 => parseElems fuel (x :: acc) r2
    | ']' :: r2 => some (.arr (x :: acc).reverse, r2)
    | _ => none

def parseMembers : Nat → List (String × Json) → List Char → Option (Json × List Char)
  | 0, _, _ => none
  | fuel + 1, acc, cs =>
    match skipWs cs with
    | '"' :: r => do
      let (k, r2) ← parseStringAux r.length [] r
      match skipWs r2 with
      | ':' :: r3 => do
        let (v, r4) ← parseValue fuel r3
        match skipWs r4 with
        | ',' :: r5 => parseMembers fuel ((k, v) :: acc) r5
        | '}' :: r5 => some (.obj ((k, v) :: acc).reverse, r5)
        | _ => none
      | _ => none
    | _ => none

end

/-- Python exceptions that `_parse_gemini_response` and
`_analyze_progressive` can let escape. -/
inductive PyErr
  | attributeError (msg : String)
  | typeError (msg : String)
  | validationError (msg : String)
  | keyError (k : String)
deriving DecidableEq, Repr

/-- The analysis dictionaries passed around by
`gemini_integration.py`, with one optional field per dictionary key a
code path may write; `none` models an absent key.  Note that the module
writes the key `overall_confidence` but never the key `confidence`. -/
structure AnalysisResult where
  success : Bool := false
  error : Option String := none
  changes : List ChangeRegion := []
  overall_confidence : Option ℚ := none
  confidence : Option ℚ := none
  summary : Option String := none
  raw_response : Option String := none
  resolution_used : Option String := none
  note : Option String := none
deriving DecidableEq, Repr

/-- The four resolution tiers (`ResolutionLevel`, lines 26-32). -/
inductive ResolutionLevel
  | low
  | medium
  | high
  | ultra
deriving DecidableEq, Repr

def ResolutionLevel.value : ResolutionLevel → String
  | .low => "720p"
  | .medium => "1080p"
  | .high => "4K"
  | .ultra => "8K"

/-- `GeminiIntegrationService._analyze_progressive` (lines 205-259),
embedded over an oracle `single` for `_analyze_single_resolution` (an
external vision call followed by `_parse_gemini_response`) and an
oracle `acq` for the outcome of the k-th mid-loop
`rate_limiter.acquire()`.  Faithful control flow per tier: line 241
tests `result.get("success") and result.get("confidence", 0) >=
min_confidence` — the key `"confidence"`, absent from every result this
module builds — and on entering that branch line 242 reads
`result["confidence"]`, a `KeyError` when the key is absent; otherwise,
when the tier is not ULTRA, a token is re-acquired (timeout returns the
rate-limit error dictionary) and the loop continues; after the loop the
last result is annotated with ULTRA and the below-target note (the
source interpolates `min_confidence` into the note's f-string). -/
def progressiveGo (single : ResolutionLevel → AnalysisResult) (acq : Nat → Bool)
    (min_confidence : ℚ) : Nat → ResolutionLevel → List ResolutionLevel →
    Except PyErr AnalysisResult
  | k, r, rest =>
    let result := single r
    if result.success = true ∧ min_confidence ≤ (result.confidence.getD 0) then
      match result.confidence with
      | none => .error (.keyError "confidence")
      | some _ => .ok { result with resolution_used := some r.value }
    else
      let afterLoop : AnalysisResult :=
        { result with
          resolution_used := some (ResolutionLevel.value .ultra)
          note := some "Did not reach min confidence even at ultra-high resolution" }
      if r ≠ ResolutionLevel.ultra then
        if acq k then
          match rest with
          | [] => .ok afterLoop
          | r2 :: rest2 => progressiveGo single acq min_confidence (k + 1) r2 rest2
        else
          .ok { success := false
                error := some "Rate limit timeout during progressive analysis" }
      else
        match rest with
        | [] => .ok afterLoop
        | r2 :: rest2 => progressiveGo single acq min_confidence (k + 1) r2 rest2

/-- `_analyze_progressive` iterates the fixed tier list
low → medium → high → ultra (lines 223-228). -/
def analyze_progressive (single : ResolutionLevel → AnalysisResult)
    (acq : Nat → Bool) (min_confidence : ℚ) : Except PyErr AnalysisResult :=
  progressiveGo single acq min_confidence 0 .low [.medium, .high, .ultra]

/-! ## `CacheService` (`services/cache.py`).  The in-memory tier is the
`_memory_cache` dict, the durable tier the `cache/<key>.json` files;
both are modelled as association lists.  A disk file stores
`CacheEntry.to_dict(...)`; reading applies `CacheEntry.from_dict`, so
the model stores the round-tripped entry: `to_dict` keeps no
heatmap/report paths, serialized intended changes lose their
`intended`/`severity` fields and unintended ones their `intended`
field (lines 40-135). -/

structure CacheEntry where
  cache_key : String
  result : ComparisonResult
  timestamp : ℚ
deriving DecidableEq, Repr

/-- What survives `to_dict` then `from_dict` for an intended change:
description, bbox and confidence only. -/
def serializeIntended (c : ChangeRegion) : ChangeRegion :=
  { bbox := c.bbox, description := c.description, confidence := c.confidence }

/-- What survives `to_dict` then `from_dict` for an unintended change:
severity is kept, `intended` is not. -/
def serializeUnintended (c : ChangeRegion) : ChangeRegion :=
  { bbox := c.bbox, description := c.description, confidence := c.confidence,
    severity := c.severity }

/-- The `CacheEntry` reconstructed by `from_dict` from a stored
`to_dict` snapshot. -/
def diskRoundtrip (e : CacheEntry) : CacheEntry :=
  { e with result :=
      { e.result with
        intended_changes := e.result.intended_changes.map serializeIntended
        unintended_changes := e.result.unintended_changes.map serializeUnintended
        heatmap_path := none
        report_path := none } }

def lookupAssoc (m : List (String × CacheEntry)) (k : String) : Option CacheEntry :=
  (m.find? (fun p => p.1 = k)).map (fun p => p.2)

def removeAssoc (m : List (String × CacheEntry)) (k : String) :
    List (String × CacheEntry) :=
  m.filter (fun p => p.1 ≠ k)

def insertAssoc (m : List (String × CacheEntry)) (k : String) (e : CacheEntry) :
    List (String × CacheEntry) :=
  (k, e) :: removeAssoc m k

/-- State of a `CacheService`. -/
structure CacheState where
  memory : List (String × CacheEntry) := []
  disk : List (String × CacheEntry) := []
  hits : Nat := 0
  misses : Nat := 0
  cache_ttl : ℚ := 24 * 3600
deriving DecidableEq, Repr

/-- `CacheService.get` (lines 187-237): memory tier first (expired
entries evicted), then the disk tier (a valid entry is promoted into
memory, an expired file unlinked), else a miss. -/
def cacheGet (now : ℚ) (key : String) (st : CacheState) :
    Option ComparisonResult × CacheState :=
  let diskSide : CacheState → Option ComparisonResult × CacheState := fun st1 =>
    match lookupAssoc st1.disk key with
    | some stored =>
      let entry := diskRoundtrip stored
      if now - entry.timestamp < st1.cache_ttl then
        (some entry.result,
         { st1 with memory := insertAssoc st1.memory key entry
                    hits := st1.hits + 1 })
      else
        (none, { st1 with disk := removeAssoc st1.disk key
                          misses := st1.misses + 1 })
    | none => (none, { st1 with misses := st1.misses + 1 })
  match lookupAssoc st.memory key with
  | some entry =>
    if now - entry.timestamp < st.cache_ttl then
      (some entry.result, { st with hits := st.hits + 1 })
    else
      diskSide { st with memory := removeAssoc st.memory key }
  | none => diskSide st

/-- `CacheService.put` (lines 239-266): write through both tiers; the
disk file holds the `to_dict` serialization. -/
def cachePut (now : ℚ) (key : String) (result : ComparisonResult)
    (st : CacheState) : CacheState :=
  let entry : CacheEntry := { cache_key := key, result := result, timestamp := now }
  { st with memory := insertAssoc st.memory key entry
            disk := insertAssoc st.disk key entry }

/-! ## `ClassificationService.compare_and_classify`
(`services/classification.py`, lines 63-223).  External effects are
supplied as oracles: `pixelResult` is the outcome of
`ComparisonService.compare` on these inputs, `geminiOutcome` the
dictionary `analyze_changes` would return, `heatmapPath`/`reportPath`
the timestamp-named artifact paths when their generation succeeds
(`none` models a logged failure).  `start_time` models the
`datetime.now()` taken on entry and `put_time` the one taken inside
`cache_service.put`. -/

structure PipelineOracles where
  pixelResult : ComparisonResult
  geminiAvailable : Bool
  geminiOutcome : AnalysisResult
  heatmapPath : Option String
  reportPath : Option String
deriving DecidableEq, Repr

def compare_and_classify (cfg : ComparisonConfig) (o : PipelineOracles)
    (before_path after_path : String)
    (baseline_expected : Option (List ExpectedChange))
    (threshold : Option Nat) (enable_gemini : Option Bool)
    (start_time put_time : ℚ) (st : CacheState) :
    ComparisonResult × CacheState :=
  let eff := effectiveThreshold threshold cfg
  let cache_key := get_cache_key before_path after_path eff
  match cacheGet start_time cache_key st with
  | (some cached, st1) => (cached, st1)
  | (none, st1) =>
    let use_gemini := enable_gemini.getD cfg.enable_agentic_vision
    let gemini_changes :=
      if use_gemini ∧ o.geminiAvailable ∧ o.geminiOutcome.success then
        o.geminiOutcome.changes
      else []
    let (intended_changes, unintended_changes) :=
      classify_changes gemini_changes baseline_expected
    let (passed, failure_reason) :=
      determine_pass_fail cfg o.pixelResult intended_changes unintended_changes
    let heatmap_path :=
      if o.pixelResult.changed_pixels > 0 then o.heatmapPath else none
    let result : ComparisonResult :=
      { before_path := before_path
        after_path := after_path
        threshold := eff
        changed_pixels := o.pixelResult.changed_pixels
        total_pixels := o.pixelResult.total_pixels
        changed_percentage := o.pixelResult.changed_percentage
        intended_changes := intended_changes
        unintended_changes := unintended_changes
        passed := passed
        failure_reason := failure_reason
        heatmap_path := heatmap_path
        report_path := o.reportPath
        timestamp := start_time }
    (result, cachePut put_time cache_key result st1)

/-- A concrete pixel-comparison outcome used to exercise the pipeline
on one fixed input. -/
def samplePixelResult : ComparisonResult :=
  { before_path := "before.png", after_path := "after.png", threshold := 2,
    changed_pixels := 0, total_pixels := 1, changed_percentage := 0,
    passed := false, timestamp := 0 }

/-- Concrete pipeline oracles (vision disabled) for exercising
`compare_and_classify` on one fixed input. -/
def sampleOracles : PipelineOracles :=
  { pixelResult := samplePixelResult, geminiAvailable := false,
    geminiOutcome := {}, heatmapPath := none, reportPath := none }

/-! ## Theorems -/

theorem lexLe_total (as bs : List Char) : lexLe as bs = true ∨ lexLe bs as = true := by
  induction as generalizing bs with
  | nil => left; rfl
  | cons a as ih =>
    cases bs with
    | nil => right; rfl
    | cons b bs =>
      simp only [lexLe]
      rcases Nat.lt_trichotomy a.toNat b.toNat with h | h | h
      · left; simp [h]
      · have h1 : ¬ a.toNat < b.toNat := by omega
        have h2 : ¬ b.toNat < a.toNat := by omega
        rcases ih bs with hab | hba
        · left; simp [h1, h2, hab]
        · right; simp [h1, h2, hba]
      · right; simp [h, Nat.lt_asymm h]

theorem char_toNat_inj {a b : Char} (h : a.toNat = b.toNat) : a = b := by
  cases a; cases b
  simp only [Char.toNat] at h
  congr 1
  exact UInt32.ext h

theorem lexLe_antisymm (as bs : List Char) (h1 : lexLe as bs = true)
    (h2 : lexLe bs as = true) : as = bs := by
  induction as generalizing bs with
  | nil =>
    cases bs with
    | nil => rfl
    | cons b bs => simp [lexLe] at h2
  | cons a as ih =>
    cases bs with
    | nil => simp [lexLe] at h1
    | cons b bs =>
      rcases Nat.lt_trichotomy a.toNat b.toNat with h | h | h
      · simp [lexLe, h, Nat.lt_asymm h] at h2
      · have ha : ¬ a.toNat < b.toNat := by omega
        have hb : ¬ b.toNat < a.toNat := by omega
        simp only [lexLe, ha, hb, if_false] at h1 h2
        rw [char_toNat_inj h, ih bs h1 h2]
      · simp [lexLe, h, Nat.lt_asymm h] at h1

theorem sortedPair_comm (a b : String) : sortedPair a b = sortedPair b a := by
  unfold sortedPair
  by_cases h1 : lexLe a.data b.data = true
  · by_cases h2 : lexLe b.data a.data = true
    · have : a = b := by
        cases a; cases b
        exact congrArg String.mk (lexLe_antisymm _ _ h1 h2)
      simp [this]
    · simp [h1, h2]
  · rcases lexLe_total a.data b.data with h | h
    · exact absurd h h1
    · simp [h1, h]

/-- **C1** (counterexample). The code's cache key is *not* role-aware:
for the two distinct image paths `a.png` and `b.png` and threshold 2,
`get_cache_key` returns the same key in both orders, because
`hash_image_pair` sorts the two path strings before hashing — and it
hashes the paths, never the files' bytes. -/
theorem C1_counterexample :
    ("a.png" : String) ≠ "b.png" ∧
      get_cache_key "a.png" "b.png" 2 = get_cache_key "b.png" "a.png" 2 := by
  constructor
  · decide
  · decide

/-- **C1** (amended). The cache key is a function of the two images'
filesystem path strings (sorted lexicographically) plus the threshold —
the file contents are never read — hence it is symmetric in the two
paths; it does remain threshold-sensitive: thresholds 2 and 3 give
different keys for the same pair. -/
theorem C1_amended :
    (∀ p1 p2 : String, ∀ t : Nat, get_cache_key p1 p2 t = get_cache_key p2 p1 t) ∧
      get_cache_key "a.png" "b.png" 2 ≠ get_cache_key "a.png" "b.png" 3 := by
  constructor
  · intro p1 p2 t
    unfold get_cache_key hash_image_pair
    rw [sortedPair_comm]
  · decide

/-- **C2**. `_determine_pass_fail` runs the four checks in the fixed
order region-count, percentage, critical severity, major severity,
returning `false` with the first failing check's reason, and `true`
with no reason when none fail; `passed` holds exactly when no reason is
reported, so a single reason is reported even when several rules
would fail. -/
theorem C2_pass_fail_order (cfg : ComparisonConfig) (pr : ComparisonResult)
    (i u : List ChangeRegion) :
    determine_pass_fail cfg pr i u =
      (if i.length + u.length > cfg.max_changed_regions then
        (false, some (.tooManyRegions (i.length + u.length) cfg.max_changed_regions))
      else if pr.changed_percentage > cfg.max_changed_percentage then
        (false, some (.tooManyPixels pr.changed_percentage cfg.max_changed_percentage))
      else if 0 < severityCount .critical u then
        (false, some (.criticalChanges (severityCount .critical u)))
      else if 0 < severityCount .major u then
        (false, some (.majorChanges (severityCount .major u)))
      else (true, none)) ∧
    ((determine_pass_fail cfg pr i u).1 = true ↔
      (determine_pass_fail cfg pr i u).2 = none) := by
  have heq : determine_pass_fail cfg pr i u =
      (if i.length + u.length > cfg.max_changed_regions then
        (false, some (.tooManyRegions (i.length + u.length) cfg.max_changed_regions))
      else if pr.changed_percentage > cfg.max_changed_percentage then
        (false, some (.tooManyPixels pr.changed_percentage cfg.max_changed_percentage))
      else if 0 < severityCount .critical u then
        (false, some (.criticalChanges (severityCount .critical u)))
      else if 0 < severityCount .major u then
        (false, some (.majorChanges (severityCount .major u)))
      else (true, none)) := by
    unfold determine_pass_fail
    split_ifs <;> simp_all
  refine ⟨heq, ?_⟩
  rw [heq]
  split_ifs <;> simp

/-- **C8** (counterexample). A change whose `intended` field the
detector set to `False` and whose description matches an expected
change is overwritten to `True` by `_classify_changes` (line 255 sets
`change.intended = True` unconditionally on a match). -/
theorem C8_counterexample :
    (classify_changes
        [{ bbox := [], description := "button moved", confidence := 1,
           intended := some false }]
        (some [{ description := "button" }])).1 =
      [{ bbox := [], description := "button moved", confidence := 1,
         intended := some true }] ∧
      (some false : Option Bool) ≠ some true := by
  constructor
  · rfl
  · decide

/-- **C8** (amended). A detector-set `intended` value survives
classification only for changes that match *no* expected entry (and
among those, only unset fields are assigned `False`); a change matching
some expected entry always ends up with `intended = True`, overwriting
any detector-assigned value. -/
theorem C8_amended (c : ChangeRegion) (e : ExpectedChange)
    (es : List ExpectedChange) :
    classify_changes [c] (some (e :: es)) =
      (if (((e :: es).find? (fun x => change_matches_expected c x)).isSome) then
        ([{ c with intended := some true }], [])
      else
        ([], [if c.intended = none then { c with intended := some false } else c])) := by
  simp only [classify_changes, classifyLoop, List.isEmpty_cons]
  split_ifs <;> simp_all

/-- **C10**. When vision analysis produced changes but no expected
changes are available — no baseline (`None`) or an empty list, both
falsy in Python — `_classify_changes` returns an empty intended list
and the detected changes, untouched, as the unintended list. -/
theorem C10_no_expected (g : List ChangeRegion) :
    classify_changes g none = ([], g) ∧ classify_changes g (some []) = ([], g) := by
  cases g <;> simp [classify_changes]

theorem natAbsDiff_self (a : Nat) : natAbsDiff a a = 0 := by
  simp [natAbsDiff]

theorem absdiff_row_self (row : List Pixel) :
    row.zipWith (fun pa pb => (natAbsDiff pa.1 pb.1, natAbsDiff pa.2.1 pb.2.1,
      natAbsDiff pa.2.2 pb.2.2)) row = row.map (fun _ => ((0, 0, 0) : Pixel)) := by
  induction row with
  | nil => rfl
  | cons p ps ih => simp [List.zipWith, ih, natAbsDiff_self]

theorem countNonZero_diff_self (x : Img) (t : Nat) :
    countNonZero (threshBinary t (grayImg (absdiffImg x x))) = 0 := by
  induction x with
  | nil => rfl
  | cons row rows ih =>
    simp only [absdiffImg, List.zipWith, grayImg, threshBinary, countNonZero,
      List.map_cons, List.sum_cons] at ih ⊢
    rw [absdiff_row_self]
    have hrow : ((row.map (fun _ => ((0, 0, 0) : Pixel))).map bgrToGray).map
        (fun v => if v > t then 255 else 0) = row.map (fun _ => 0) := by
      induction row with
      | nil => rfl
      | cons p ps ihr => simp_all [bgrToGray]
    rw [hrow]
    have hfil : (row.map (fun _ => 0)).filter (fun v => v ≠ 0) = [] := by
      induction row with
      | nil => rfl
      | cons p ps ihr => simp_all
    rw [hfil]
    simpa [absdiffImg] using ih

/-- **C5** (counterexample). `ComparisonService.compare` on the same
readable one-pixel image with threshold 2 reports zero changed pixels
and zero percentage — but `passed = false`, because the source
hard-codes `passed=False` in the result it builds (its `P3-PLAN-7`
placeholder); the claim's `passed = true` fails. -/
theorem C5_counterexample :
    (ComparisonService.compare id (fun _ i => i) {} [[(0, 0, 0)]] [[(0, 0, 0)]]
        (some 2) "before.png" "after.png" 0).passed = false ∧
      ¬ ((ComparisonService.compare id (fun _ i => i) {} [[(0, 0, 0)]] [[(0, 0, 0)]]
          (some 2) "before.png" "after.png" 0).changed_pixels = 0 ∧
        (ComparisonService.compare id (fun _ i => i) {} [[(0, 0, 0)]] [[(0, 0, 0)]]
          (some 2) "before.png" "after.png" 0).changed_percentage = 0 ∧
        (ComparisonService.compare id (fun _ i => i) {} [[(0, 0, 0)]] [[(0, 0, 0)]]
          (some 2) "before.png" "after.png" 0).passed = true) := by
  constructor
  · rfl
  · intro h
    exact absurd h.2.2 (by simp [ComparisonService.compare])

/-- **C5** (amended). For every image compared against itself at any
threshold in {1, 2, 3} (any blur and resize transforms, any
configuration), `compare` reports `changed_pixels = 0` and
`changed_percentage = 0.0`, but the `passed` field of the result it
builds is `false` — pass/fail is determined later by the
classification service, not by `compare`. -/
theorem C5_amended (blur : Img → Img) (resize : Nat × Nat → Img → Img)
    (cfg : ComparisonConfig) (img : Img) (p1 p2 : String) (now : ℚ) (t : Nat)
    (ht : t = 1 ∨ t = 2 ∨ t = 3) :
    (ComparisonService.compare blur resize cfg img img (some t) p1 p2 now).changed_pixels = 0 ∧
    (ComparisonService.compare blur resize cfg img img (some t) p1 p2 now).changed_percentage = 0 ∧
    (ComparisonService.compare blur resize cfg img img (some t) p1 p2 now).passed = false := by
  have hth : effectiveThreshold (some t) cfg = t := by
    rcases ht with h | h | h <;> simp [effectiveThreshold, h]
  unfold ComparisonService.compare
  simp only [hth, ne_eq, not_true_eq_false, if_neg, ite_self, if_false,
    not_false_eq_true, if_true]
  rcases hcase : cfg.enable_anti_aliasing_filter with hf | ht2 <;>
    simp only [hcase, if_true, if_false, Bool.false_eq_true] <;>
    constructor <;>
    try constructor
  all_goals
    first
    | exact countNonZero_diff_self _ _
    | (rw [countNonZero_diff_self]; simp)
    | rfl
    | trivial

/-- From any state holding exactly `n` whole tokens within capacity and
an empty queue, `n + 1` immediate `acquire` calls yield `n` successes
then a failure. -/
theorem acquire_steady (s : RateLimiterState) (n : Nat) (htok : s.tokens = (n : ℚ))
    (hle : s.tokens ≤ s.max_tokens) (hq : s.queueLen = 0) :
    (acquireSeq s (List.replicate (n + 1) s.last_refill)).1 =
      List.replicate n true ++ [false] ∧
    (acquireSeq s (List.replicate (n + 1) s.last_refill)).2.queueLen = 0 := by
  induction n generalizing s with
  | zero =>
    have h0 : s.tokens = 0 := by rw [htok]; norm_num
    have hrefill : refill_tokens s.last_refill s = s := by
      simp [refill_tokens, sub_self, zero_mul, add_zero, min_eq_right hle]
    simp [acquireSeq, acquire, hrefill, h0, hq]
    constructor
    · norm_num
    · exact hq
  | succ n ih =>
    have h1 : (1 : ℚ) ≤ s.tokens := by
      rw [htok]; exact_mod_cast Nat.one_le_iff_ne_zero.mpr (Nat.succ_ne_zero n)
    have hrefill : refill_tokens s.last_refill s = s := by
      simp [refill_tokens, sub_self, zero_mul, add_zero, min_eq_right hle]
    have hstep : acquire s.last_refill s = (true, { s with tokens := s.tokens - 1 }) := by
      simp [acquire, hrefill, h1]
    have hrec := ih { s with tokens := s.tokens - 1 }
      (by simp only [htok]; push_cast; ring) (by simpa using by linarith) (by simpa using hq)
    simp only [List.replicate, acquireSeq, hstep] at hrec ⊢
    simpa using hrec

/-- **C6** (code bug). From full default capacity (15 tokens) and 16
`acquire()` calls in immediate succession, the first 15 succeed and the
16th fails: the blocked caller waits on the limiter's `asyncio.Queue`,
but no statement in the module ever puts an item into that queue
(`queueLen` stays 0), so the 16th call can only time out and return
`False` — it is never woken by a refill as the claim describes. -/
theorem C6_code_bug :
    (acquireSeq { last_refill := 0 } (List.replicate 16 0)).1 =
      List.replicate 15 true ++ [false] ∧
    (acquireSeq { last_refill := 0 } (List.replicate 16 0)).2.queueLen = 0 := by
  exact acquire_steady { last_refill := 0 } 15 (by norm_num) (by norm_num) rfl

/-- **C7**. Along every sequence of limiter operations with
non-decreasing wall-clock instants, starting from any state with
non-negative tokens, non-negative capacity and refill rate and an empty
queue (as at construction), the token count stays non-negative; the
queue stays empty (nothing ever puts into it), so the one decrement
that skips the availability check is never executed. -/
theorem C7_tokens_nonneg (s : RateLimiterState) (ops : List LimiterOp)
    (h0 : 0 ≤ s.tokens) (hq : s.queueLen = 0) (hr : 0 ≤ s.refill_rate)
    (hm : 0 ≤ s.max_tokens) (ht : timesValid s.last_refill ops) :
    0 ≤ (runLimiter s ops).tokens ∧ (runLimiter s ops).queueLen = 0 := by
  induction ops generalizing s with
  | nil => exact ⟨h0, hq⟩
  | cons op ops ih =>
    obtain ⟨hle, hrest⟩ := ht
    have hstep : ∀ t, s.last_refill ≤ t →
        0 ≤ (refill_tokens t s).tokens ∧ (refill_tokens t s).queueLen = 0 ∧
        (refill_tokens t s).last_refill = t ∧
        (refill_tokens t s).refill_rate = s.refill_rate ∧
        (refill_tokens t s).max_tokens = s.max_tokens := by
      intro t hts
      refine ⟨?_, hq, rfl, rfl, rfl⟩
      simp only [refill_tokens]
      have : (0 : ℚ) ≤ (t - s.last_refill) * s.refill_rate :=
        mul_nonneg (by linarith) hr
      exact le_min hm (by linarith)
    cases op with
    | acquireAt t =>
      obtain ⟨ha, hb, hc, hd, he⟩ := hstep t hle
      simp only [runLimiter, List.foldl_cons, limiterStep, acquire]
      split_ifs with h1 h2
      · exact ih _ (by simp; linarith) (by simp [hb]) (by simp [hd, hr])
          (by simp [he, hm]) (by simpa [hc] using hrest)
      · rw [hb] at h2
        omega
      · exact ih _ ha hb (by simpa [hd] using hr) (by simpa [he] using hm)
          (by simpa [hc] using hrest)
    | statusAt t =>
      obtain ⟨ha, hb, hc, hd, he⟩ := hstep t hle
      simp only [runLimiter, List.foldl_cons, limiterStep, get_status]
      exact ih _ ha hb (by simpa [hd] using hr) (by simpa [he] using hm)
        (by simpa [hc] using hrest)

/-- **C3** (code bug). The stop condition on line 241 reads the key
`"confidence"`, but `_parse_gemini_response` stores the score under
`"overall_confidence"`; so even when every tier replies successfully
with overall confidence 0.95 ≥ min_confidence 0.8 (and every re-acquire
succeeds), the escalation never stops early: it runs all four tiers and
returns the last result annotated with the 8K tier and the
below-confidence-target note, instead of returning after the low tier
as the claim states. -/
theorem C3_code_bug :
    analyze_progressive
        (fun _ => { success := true, overall_confidence := some (19 / 20),
                    summary := some "" })
        (fun _ => true) (4 / 5) =
      .ok { success := true, overall_confidence := some (19 / 20), summary := some ""
            resolution_used := some "8K"
            note := some "Did not reach min confidence even at ultra-high resolution" } ∧
    (some "8K" : Option String) ≠ some (ResolutionLevel.value .low) := by
  constructor
  · norm_num [analyze_progressive, progressiveGo, ResolutionLevel.value]
  · decide

theorem lookupAssoc_insert_self (m : List (String × CacheEntry)) (k : String)
    (e : CacheEntry) : lookupAssoc (insertAssoc m k e) k = some e := by
  simp [lookupAssoc, insertAssoc, List.find?]

/-- A `get` when neither tier holds the key is a miss that only bumps
the miss counter. -/
theorem cacheGet_miss (tn : ℚ) (key : String) (st : CacheState)
    (hmem : lookupAssoc st.memory key = none)
    (hdisk : lookupAssoc st.disk key = none) :
    cacheGet tn key st = (none, { st with misses := st.misses + 1 }) := by
  simp [cacheGet, hmem, hdisk]

/-- A `get` within the TTL right after a `put` of the same key is a
memory-tier hit returning exactly the stored result. -/
theorem cacheGet_after_put (st : CacheState) (key : String)
    (r : ComparisonResult) (tp tn : ℚ) (h : tn - tp < st.cache_ttl) :
    cacheGet tn key (cachePut tp key r st) =
      (some r, { cachePut tp key r st with hits := st.hits + 1 }) := by
  simp [cacheGet, cachePut, lookupAssoc_insert_self, h]

/-- **C4**. With the cache initially not holding the key (and no
intervening clear), calling `compare_and_classify` twice with identical
`(before, after, threshold, config)` returns on the second call a
result equal to the first one in every field — in particular identical
except (at most) its timestamp — served from the cache: the second call
records a cache hit (hits increase by one, misses stay put), while the
first call was the sole miss. -/
theorem C4_idempotent_cached (cfg : ComparisonConfig) (o : PipelineOracles)
    (bp ap : String) (be : Option (List ExpectedChange)) (th : Option Nat)
    (eg : Option Bool) (t1 tp1 t2 tp2 : ℚ) (st0 : CacheState)
    (hmem : lookupAssoc st0.memory (get_cache_key bp ap (effectiveThreshold th cfg)) = none)
    (hdisk : lookupAssoc st0.disk (get_cache_key bp ap (effectiveThreshold th cfg)) = none)
    (httl : t2 - tp1 < st0.cache_ttl) :
    (compare_and_classify cfg o bp ap be th eg t2 tp2
        (compare_and_classify cfg o bp ap be th eg t1 tp1 st0).2).1 =
      (compare_and_classify cfg o bp ap be th eg t1 tp1 st0).1 ∧
    (compare_and_classify cfg o bp ap be th eg t2 tp2
        (compare_and_classify cfg o bp ap be th eg t1 tp1 st0).2).2.hits =
      (compare_and_classify cfg o bp ap be th eg t1 tp1 st0).2.hits + 1 ∧
    (compare_and_classify cfg o bp ap be th eg t2 tp2
        (compare_and_classify cfg o bp ap be th eg t1 tp1 st0).2).2.misses =
      (compare_and_classify cfg o bp ap be th eg t1 tp1 st0).2.misses ∧
    (compare_and_classify cfg o bp ap be th eg t1 tp1 st0).2.misses =
      st0.misses + 1 := by
  have hget1 := cacheGet_miss t1 (get_cache_key bp ap (effectiveThreshold th cfg)) st0
    hmem hdisk
  have httl1 : t2 - tp1 < ({ st0 with misses := st0.misses + 1 } : CacheState).cache_ttl :=
    httl
  have hget2 := cacheGet_after_put { st0 with misses := st0.misses + 1 }
    (get_cache_key bp ap (effectiveThreshold th cfg))
  simp only [compare_and_classify, hget1]
  simp only [compare_and_classify, hget2 _ tp1 t2 httl1]
  simp [cachePut]

/-- **C4** (witness): on a fresh empty cache with vision disabled, the
second of two identical invocations returns the first call's result and
records the cache hit. -/
theorem C4_witness :
    (lookupAssoc ({} : CacheState).memory
        (get_cache_key "before.png" "after.png" (effectiveThreshold none {})) = none ∧
      lookupAssoc ({} : CacheState).disk
        (get_cache_key "before.png" "after.png" (effectiveThreshold none {})) = none ∧
      (2 : ℚ) - 1 < ({} : CacheState).cache_ttl) ∧
    ((compare_and_classify {} sampleOracles "before.png" "after.png" none none none 2 2
        (compare_and_classify {} sampleOracles "before.png" "after.png" none none none
          1 1 {}).2).1 =
      (compare_and_classify {} sampleOracles "before.png" "after.png" none none none
        1 1 {}).1 ∧
    (compare_and_classify {} sampleOracles "before.png" "after.png" none none none 2 2
        (compare_and_classify {} sampleOracles "before.png" "after.png" none none none
          1 1 {}).2).2.hits =
      (compare_and_classify {} sampleOracles "before.png" "after.png" none none none
        1 1 {}).2.hits + 1 ∧
    (compare_and_classify {} sampleOracles "before.png" "after.png" none none none 2 2
        (compare_and_classify {} sampleOracles "before.png" "after.png" none none none
          1 1 {}).2).2.misses =
      (compare_and_classify {} sampleOracles "before.png" "after.png" none none none
        1 1 {}).2.misses ∧
    (compare_and_classify {} sampleOracles "before.png" "after.png" none none none
        1 1 {}).2.misses = ({} : CacheState).misses + 1) :=
  ⟨⟨rfl, rfl, by norm_num⟩,
    C4_idempotent_cached {} sampleOracles "before.png" "after.png" none none none
      1 1 2 2 {} rfl rfl (by norm_num)⟩

/-- **C5** (witness for the amended theorem): at threshold 2 on a
concrete one-pixel image compared against itself. -/
theorem C5_amended_witness :
    ((2 : Nat) = 1 ∨ (2 : Nat) = 2 ∨ (2 : Nat) = 3) ∧
    ((ComparisonService.compare id (fun _ i => i) {} [[(10, 20, 30)]] [[(10, 20, 30)]]
        (some 2) "before.png" "after.png" 0).changed_pixels = 0 ∧
      (ComparisonService.compare id (fun _ i => i) {} [[(10, 20, 30)]] [[(10, 20, 30)]]
        (some 2) "before.png" "after.png" 0).changed_percentage = 0 ∧
      (ComparisonService.compare id (fun _ i => i) {} [[(10, 20, 30)]] [[(10, 20, 30)]]
        (some 2) "before.png" "after.png" 0).passed = false) :=
  ⟨by decide,
    C5_amended id (fun _ i => i) {} [[(10, 20, 30)]] "before.png" "after.png" 0 2
      (by decide)⟩

/-- **C7** (witness): a freshly constructed limiter run through an
acquire, a status query and a later acquire keeps its tokens
non-negative. -/
theorem C7_witness :
    (0 ≤ ({ last_refill := 0 } : RateLimiterState).tokens ∧
      ({ last_refill := 0 } : RateLimiterState).queueLen = 0 ∧
      0 ≤ ({ last_refill := 0 } : RateLimiterState).refill_rate ∧
      0 ≤ ({ last_refill := 0 } : RateLimiterState).max_tokens ∧
      timesValid ({ last_refill := 0 } : RateLimiterState).last_refill
        [.acquireAt 1, .statusAt 2, .acquireAt 3]) ∧
    (0 ≤ (runLimiter { last_refill := 0 }
        [.acquireAt 1, .statusAt 2, .acquireAt 3]).tokens ∧
      (runLimiter { last_refill := 0 }
        [.acquireAt 1, .statusAt 2, .acquireAt 3]).queueLen = 0) :=
  ⟨⟨by norm_num, rfl, by norm_num, by norm_num, by norm_num [timesValid, LimiterOp.time]⟩,
    C7_tokens_nonneg { last_refill := 0 } [.acquireAt 1, .statusAt 2, .acquireAt 3]
      (by norm_num) rfl (by norm_num) (by norm_num) (by norm_num [timesValid, LimiterOp.time])⟩

end WheresWaldo
